import Mathlib

/-!
Verification development for the DataSage session-scoped dataset store and
natural-language query subsystem.

The definitions below are a shallow embedding of the Python sources:

* `backend/services/sql_service.py` — the rule-based natural-language to SQL
  matcher (`natural_language_to_sql`), the remote-service wrapper
  (`natural_language_to_sql_with_groq`), query execution
  (`execute_query`) and the orchestrator (`execute_sql_from_natural_language`).
* `backend/services/session_service.py` — sessions, sample sessions,
  dataset attachment and loading.
* `backend/database/mongodb.py` — the metadata store with
  renewal-on-read and its in-process fallback map.

Strings of the Python code are modelled over `List Char` wherever a function
scans character by character (lowercasing, substring tests, digit extraction),
so every definition evaluates by kernel reduction.  External collaborators
(pandas, SQLite, MongoDB) are not part of the repository; where a claim needs
their behaviour, the definition carries a doc comment starting with
`Modelled from the spec:`.  Timestamps are modelled as integers (seconds);
`datetime.now()` becomes an explicit `now : Int` argument.
-/

namespace DataSage

/-! ## Character-list string helpers -/

/-- Boolean test that `p` is a leading fragment of `l` (character lists). -/
def leadsWith : List Char → List Char → Bool
  | [], _ => true
  | _ :: _, [] => false
  | p :: ps, c :: cs => p == c && leadsWith ps cs

/-- Boolean substring occurrence test, modelling the python `pat in s` operator
on strings. -/
def hasSub : List Char → List Char → Bool
  | [], pat => pat.isEmpty
  | c :: cs, pat => leadsWith pat (c :: cs) || hasSub cs pat

/-- Drop whitespace from both ends, modelling python `str.strip()`. -/
def trimChars (l : List Char) : List Char :=
  ((l.dropWhile Char.isWhitespace).reverse.dropWhile Char.isWhitespace).reverse

/-- Lowercased character list of a string; models python `str.lower()` on
ASCII input. -/
def lowerChars (s : String) : List Char := s.toList.map Char.toLower

/-- Normalisation applied by the matcher: `nl_query.lower().strip()`. -/
def normalizeQuery (s : String) : List Char :=
  trimChars (s.toList.map Char.toLower)

/-- Longest leading run of decimal digits. -/
def takeDigits : List Char → List Char
  | [] => []
  | c :: cs => if c.isDigit then c :: takeDigits cs else []

/-- First maximal run of decimal digits in the list, as a string; models
`re.findall(r"\d+", query)[0]` (with `none` when the list of matches
is empty). -/
def firstNumberLit : List Char → Option String
  | [] => none
  | c :: cs => if c.isDigit then some (String.mk (takeDigits (c :: cs))) else firstNumberLit cs

/-- The comparison value used by the `where` rules: the first number found in
the request, or the default `0`. -/
def numberOrZero (q : List Char) : String := (firstNumberLit q).getD "0"

/-! ## Data model: values and data frames -/

/-- A cell value of a tabular dataset.  Numbers are exact rationals (pandas
int64/float64 columns), everything else is text. -/
inductive Value where
  | numV (q : ℚ)
  | strV (s : String)
deriving DecidableEq

/-- A tabular dataset: ordered column names and rows of cell values.  This is
the shallow embedding of a `pandas.DataFrame` as used by the repository. -/
structure DataFrame where
  cols : List String
  rows : List (List Value)
deriving DecidableEq

/-- Result set shape returned by `SQLAssistant.execute_query`: a column list,
row mappings and a row count. -/
structure QueryRes where
  columns : List String
  rows : List (List Value)
  rowCount : Nat
deriving DecidableEq

/-! ## Sample data (`SAMPLE_DATA` in `session_service.py`) -/

def sampleCols : List String :=
  ["age", "salary", "experience", "education", "department", "performance_score",
   "attendance", "projects_completed", "satisfaction_level", "last_evaluation"]

def sampleRow1 : List Value :=
  [.numV 28, .numV 72000, .numV 5, .strV "Masters", .strV "Engineering",
   .numV 85, .numV 92, .numV 7, .numV 4.2, .numV 4.5]

def sampleRow2 : List Value :=
  [.numV 34, .numV 86000, .numV 10, .strV "PhD", .strV "Research",
   .numV 92, .numV 95, .numV 12, .numV 4.7, .numV 4.8]

def sampleRow3 : List Value :=
  [.numV 45, .numV 115000, .numV 18, .strV "Masters", .strV "Management",
   .numV 88, .numV 90, .numV 9, .numV 4.0, .numV 4.3]

def sampleRow4 : List Value :=
  [.numV 31, .numV 65000, .numV 7, .strV "Bachelors", .strV "Marketing",
   .numV 76, .numV 85, .numV 5, .numV 3.8, .numV 3.9]

def sampleRow5 : List Value :=
  [.numV 24, .numV 55000, .numV 2, .strV "Bachelors", .strV "Sales",
   .numV 72, .numV 88, .numV 4, .numV 3.5, .numV 3.7]

/-- The fixed 5-row, 10-column sample dataset materialised for `sample-`
sessions. -/
def sampleDf : DataFrame :=
  ⟨sampleCols, [sampleRow1, sampleRow2, sampleRow3, sampleRow4, sampleRow5]⟩

/-! ## Rule-based matcher (`SQLAssistant.natural_language_to_sql`) -/

def tableName : String := "user_data"

def avgSql (c : String) : String :=
  "SELECT AVG(" ++ c ++ ") as average_" ++ c ++ " FROM " ++ tableName

def sumColSql (c : String) : String :=
  "SELECT SUM(" ++ c ++ ") as sum_" ++ c ++ " FROM " ++ tableName

def countAllSql : String := "SELECT COUNT(*) as count FROM " ++ tableName

def groupCountSql (c : String) : String :=
  "SELECT " ++ c ++ ", COUNT(*) as count FROM " ++ tableName ++ " GROUP BY " ++ c

def maxColSql (c : String) : String :=
  "SELECT MAX(" ++ c ++ ") as max_" ++ c ++ " FROM " ++ tableName

def minColSql (c : String) : String :=
  "SELECT MIN(" ++ c ++ ") as min_" ++ c ++ " FROM " ++ tableName

def groupAvgSql (g a : String) : String :=
  "SELECT " ++ g ++ ", AVG(" ++ a ++ ") as avg_" ++ a ++ " FROM " ++ tableName
    ++ " GROUP BY " ++ g

def whereCmpSql (c op v : String) : String :=
  "SELECT * FROM " ++ tableName ++ " WHERE " ++ c ++ " " ++ op ++ " " ++ v

def whereNotNullSql (c : String) : String :=
  "SELECT * FROM " ++ tableName ++ " WHERE " ++ c ++ " IS NOT NULL"

def defaultSql : String := "SELECT * FROM " ++ tableName ++ " LIMIT 10"

/-- First column whose lowercased name occurs in the normalised request; this
is the `for col in column_names: if col.lower() in query` loop. -/
def findMatchingCol (cols : List String) (q : List Char) : Option String :=
  cols.find? (fun c => hasSub q (lowerChars c))

/-- First two columns whose lowercased names occur in the request, mirroring
the group-by loop that records `group_col` and then `agg_col`. -/
def findTwoMatches : List String → List Char → Option String × Option String
  | [], _ => (none, none)
  | c :: cs, q =>
    if hasSub q (lowerChars c) then
      (some c, cs.find? (fun d => hasSub q (lowerChars d)))
    else findTwoMatches cs q

/-- The age-specific shortcut block (`if "age" in query and not sql_query`). -/
def ageSpecialSql (q : List Char) : String :=
  if hasSub q "average age".toList || hasSub q "mean age".toList then
    "SELECT AVG(age) as average_age FROM " ++ tableName
  else if hasSub q "total age".toList || hasSub q "sum of age".toList then
    "SELECT SUM(age) as total_age FROM " ++ tableName
  else if hasSub q "maximum age".toList || hasSub q "oldest".toList then
    "SELECT MAX(age) as max_age FROM " ++ tableName
  else if hasSub q "minimum age".toList || hasSub q "youngest".toList then
    "SELECT MIN(age) as min_age FROM " ++ tableName
  else ""

/-- The salary-specific shortcut block (`if "salary" in query and not
sql_query`). -/
def salarySpecialSql (q : List Char) : String :=
  if hasSub q "average salary".toList || hasSub q "mean salary".toList then
    "SELECT AVG(salary) as average_salary FROM " ++ tableName
  else if hasSub q "total salary".toList || hasSub q "sum of salary".toList then
    "SELECT SUM(salary) as total_salary FROM " ++ tableName
  else if hasSub q "maximum salary".toList || hasSub q "highest salary".toList then
    "SELECT MAX(salary) as max_salary FROM " ++ tableName
  else if hasSub q "minimum salary".toList || hasSub q "lowest salary".toList then
    "SELECT MIN(salary) as min_salary FROM " ++ tableName
  else if hasSub q "salary by department".toList || hasSub q "salary per department".toList then
    "SELECT department, AVG(salary) as avg_salary FROM " ++ tableName
      ++ " GROUP BY department ORDER BY avg_salary DESC"
  else ""

/-- The fixed-precedence keyword rules of `natural_language_to_sql` (the
`if`/`elif` chain before the age and salary shortcut blocks).  The empty
string models the python variable `sql_query` still holding `""`. -/
def matchRules (cols : List String) (q : List Char) : String :=
  if hasSub q "average".toList || hasSub q "avg".toList || hasSub q "mean".toList then
    match findMatchingCol cols q with
    | some c => avgSql c
    | none => defaultSql
  else if hasSub q "sum".toList || hasSub q "total".toList then
    match findMatchingCol cols q with
    | some c => sumColSql c
    | none => ""
  else if hasSub q "count".toList then
    if hasSub q "group by".toList || hasSub q "grouped by".toList then
      match findMatchingCol cols q with
      | some c => groupCountSql c
      | none => ""
    else countAllSql
  else if hasSub q "maximum".toList || hasSub q "max".toList then
    match findMatchingCol cols q with
    | some c => maxColSql c
    | none => ""
  else if hasSub q "minimum".toList || hasSub q "min".toList then
    match findMatchingCol cols q with
    | some c => minColSql c
    | none => ""
  else if hasSub q "group by".toList || hasSub q "grouped by".toList then
    match findTwoMatches cols q with
    | (some g, some a) => groupAvgSql g a
    | (some g, none) => groupCountSql g
    | (none, _) => ""
  else if hasSub q "where".toList then
    match findMatchingCol cols q with
    | some c =>
      if hasSub q "greater than".toList || hasSub q ">".toList then
        whereCmpSql c ">" (numberOrZero q)
      else if hasSub q "less than".toList || hasSub q "<".toList then
        whereCmpSql c "<" (numberOrZero q)
      else if hasSub q "equal".toList || hasSub q "=".toList then
        whereCmpSql c "=" (numberOrZero q)
      else whereNotNullSql c
    | none => ""
  else ""

/-- The two shortcut blocks applied after the keyword rules, each guarded by
`not sql_query`. -/
def applySpecials (q : List Char) (sql : String) : String :=
  let sql1 := if hasSub q "age".toList && sql == "" then ageSpecialSql q else sql
  if hasSub q "salary".toList && sql1 == "" then salarySpecialSql q else sql1

/-- `SQLAssistant.natural_language_to_sql`: the deterministic rule-based
matcher.  `cols` is the column-name list of the loaded table schema. -/
def natural_language_to_sql (cols : List String) (nlQuery : String) : String :=
  let q := normalizeQuery nlQuery
  let sql := applySpecials q (matchRules cols q)
  if sql == "" then defaultSql else sql

/-! ## Numeric literals and the text-snapshot codec

pandas (`to_csv`, `read_csv`, `to_numeric`) is external to the repository, so
the text codec is modelled from the spec (section 4.2): the text snapshot is
derived cell by cell from the in-memory dataset, and loading it re-infers
column types from the literal values. -/

/-- Value of a non-empty all-digit character list. -/
def digitsToNat (l : List Char) : Option Nat :=
  if l.isEmpty then none
  else if l.all Char.isDigit then
    some (l.foldl (fun n c => n * 10 + (c.toNat - 48)) 0)
  else none

/-- Modelled from the spec: parsing of a numeric literal, used both by the
type re-inference on the text snapshot and by the `pd.to_numeric` coercion
step.  Accepts an optional sign, an integer part, and an optional fractional
part written after a dot or as an explicit fraction after a slash. -/
def parseNumLit (s : String) : Option ℚ :=
  let (neg, l) :=
    match s.toList with
    | '-' :: rest => (true, rest)
    | l => (false, l)
  let sgn : ℚ := if neg then -1 else 1
  match l.splitOn '.' with
  | [ip] =>
    match ip.splitOn '/' with
    | [n] => (digitsToNat n).map (fun v => sgn * v)
    | [n, d] =>
      match digitsToNat n, digitsToNat d with
      | some nv, some dv => if dv == 0 then none else some (sgn * nv / dv)
      | _, _ => none
    | _ => none
  | [ip, fp] =>
    match digitsToNat ip, digitsToNat fp with
    | some iv, some fv => some (sgn * (iv + (fv : ℚ) / (10 ^ fp.length)))
    | _, _ => none
  | _ => none

/-- Modelled from the spec: the literal text form of a cell value in the text
snapshot.  Integral numbers print as integers; other rationals print as exact
fractions (the decimal rendering of pandas carries no information the claims
below depend on). -/
def renderVal : Value → String
  | .numV q => if q.den == 1 then toString q.num else toString q.num ++ "/" ++ toString q.den
  | .strV s => s

/-- The delimited-text snapshot: a header line and literal cell values. -/
structure CsvFile where
  header : List String
  cells : List (List String)
deriving DecidableEq

/-- Modelled from the spec: `df.to_csv` — the text snapshot is derived from
the in-memory dataset, never from the binary form. -/
def toCsv (df : DataFrame) : CsvFile :=
  ⟨df.cols, df.rows.map (fun r => r.map renderVal)⟩

/-- Modelled from the spec: `pd.read_csv` type re-inference — a column whose
every literal parses as numeric is coerced to numeric, everything else is
treated as text. -/
def fromCsv (f : CsvFile) : DataFrame :=
  let numericCol : Nat → Bool := fun j =>
    (f.cells.map (fun r => r.getD j "")).all (fun cell => (parseNumLit cell).isSome)
  ⟨f.header,
   f.cells.map (fun r => r.enum.map (fun p =>
     if numericCol p.1 then Value.numV ((parseNumLit p.2).getD 0) else Value.strV p.2))⟩

/-! ## Remote translation path (`natural_language_to_sql_with_groq`) -/

/-- Outcome of the HTTP call to the remote translation service (external to
the repository): a 200 response carrying message content, a non-success
status, or a raised exception (network failure, timeout, malformed payload). -/
inductive RemoteOutcome where
  | http200 (content : String)
  | httpErr
  | exn
deriving DecidableEq

/-- Strip a surrounding fenced-code markup block, modelling the two `re.sub`
calls applied to the remote response text. -/
def stripCodeFence (s : String) : String :=
  let l := s.toList
  let l1 := if leadsWith "```sql".toList l then (l.drop 6).dropWhile Char.isWhitespace else l
  let r := l1.reverse
  let l2 := if leadsWith "```".toList r then ((r.drop 3).dropWhile Char.isWhitespace).reverse else l1
  String.mk l2

/-- `SQLAssistant.natural_language_to_sql_with_groq`.  The credential comes
from the environment (`GROQ_API_KEY`, empty when unset); the remote call is
abstracted by `remote`.  Returns `none` exactly where the python function
returns `None` (credential set but empty schema). -/
def natural_language_to_sql_with_groq (apiKey : String) (remote : RemoteOutcome)
    (cols : List String) (nl : String) : Option String :=
  if apiKey == "" then some (natural_language_to_sql cols nl)
  else if cols.isEmpty then none
  else
    match remote with
    | .http200 content => some (stripCodeFence (String.mk (trimChars content.toList)))
    | .httpErr => some (natural_language_to_sql cols nl)
    | .exn => some (natural_language_to_sql cols nl)

/-! ## Query executor (`connect_to_sqlite_memory`, `execute_query`) -/

/-- Replace every character outside the word class with an underscore,
modelling `re.sub(r"[^\w]", "_", col)` on ASCII column names. -/
def sanitizeChar (c : Char) : Char := if c.isAlphanum || c == '_' then c else '_'

def sanitizeCol (s : String) : String := String.mk (s.toList.map sanitizeChar)

/-- The cleaned copy of the data frame written into the embedded engine by
`connect_to_sqlite_memory` (column-name sanitisation only; the query text is
never rewritten). -/
def sanitizeDf (df : DataFrame) : DataFrame := ⟨df.cols.map sanitizeCol, df.rows⟩

/-- Column values at index `j` (rows are rectangular in every use below). -/
def colAt (df : DataFrame) (j : Nat) : List Value :=
  df.rows.map (fun r => r.getD j (Value.strV ""))

def isNumV : Value → Bool
  | .numV _ => true
  | .strV _ => false

/-- pandas dtype tag of a column, as produced by `str(df[col].dtype)` for the
value forms of this model. -/
def dtypeName (vs : List Value) : String :=
  if vs.all (fun v => match v with | .numV q => q.den == 1 | .strV _ => false) then "int64"
  else if vs.all isNumV then "float64"
  else "object"

/-- The `dtypes` metadata map: column name paired with its dtype tag. -/
def dtypesOf (df : DataFrame) : List (String × String) :=
  df.cols.enum.map (fun p => (p.2, dtypeName (colAt df p.1)))

/-- Numeric conversion of a single cell as attempted by `pd.to_numeric`
(numbers pass through, strings must parse as numeric literals). -/
def cellToNumeric : Value → Option ℚ
  | .numV q => some q
  | .strV s => parseNumLit s

/-- The preprocessing loop of `execute_sql_from_natural_language`: every
object-dtype column whose values all convert to numbers is coerced to a
numeric column; other columns are unchanged. -/
def coerceNumeric (df : DataFrame) : DataFrame :=
  let convert : Nat → Bool := fun j =>
    dtypeName (colAt df j) == "object"
      && (colAt df j).all (fun v => (cellToNumeric v).isSome)
  ⟨df.cols,
   df.rows.map (fun r => r.enum.map (fun p =>
     if convert p.1 then Value.numV ((cellToNumeric p.2).getD 0) else p.2))⟩

/-- Result of `SQLAssistant.execute_query`: either the converted result set or
an error dictionary carrying the message of the caught exception. -/
inductive ExecResult where
  | ok (res : QueryRes)
  | err (msg : String)
deriving DecidableEq

/-- Behaviour of the embedded relational engine on a loaded dataset and a
query string: a result data frame, or an error message for a rejected
statement.  The engine itself (SQLite driven through pandas) is external to
the repository, so it enters the model as a parameter. -/
abbrev Engine := DataFrame → String → Except String DataFrame

/-- `SQLAssistant.execute_query`: guards on the connection, runs the query on
the engine, converts the result set, and catches engine failures into an
error result instead of letting them escape. -/
def execute_query (eng : Engine) (conn : Option DataFrame) (q : String) : ExecResult :=
  match conn with
  | none => .err "No database connection"
  | some df =>
    match eng df q with
    | .ok rdf => .ok ⟨rdf.cols, rdf.rows, rdf.rows.length⟩
    | .error e => .err e

/-- The response dictionary of `execute_sql_from_natural_language`. -/
structure NLResponse where
  naturalLanguage : String
  sql : Option String
  results : ExecResult
deriving DecidableEq

/-- The SQL text chosen by `execute_sql_from_natural_language` before
execution (`none` models the python `None`). -/
def chosenSql (apiKey : String) (remote : RemoteOutcome) (cols : List String)
    (nl : String) (useGroq : Bool) : Option String :=
  if useGroq then natural_language_to_sql_with_groq apiKey remote cols nl
  else some (natural_language_to_sql cols nl)

/-- The dataset as loaded into the embedded engine: numeric coercion followed
by column-name sanitisation. -/
def loadedDf (df : DataFrame) : DataFrame := sanitizeDf (coerceNumeric df)

/-- `execute_sql_from_natural_language`.  Returns the response dictionary
together with the state of the engine connection at return (`false` means the
connection has been closed).  Engine-instance creation is taken as
succeeding; its failure path returns a distinct error before any query runs
and is outside the claims below. -/
def execute_sql_from_natural_language (eng : Engine) (apiKey : String)
    (remote : RemoteOutcome) (df : DataFrame) (nl : String) (useGroq : Bool) :
    NLResponse × Bool :=
  let dfc := loadedDf df
  let sqlq := chosenSql apiKey remote dfc.cols nl useGroq
  let results :=
    match sqlq with
    | some s => execute_query eng (some dfc) s
    | none => .err "query must be a string"
  (⟨nl, sqlq, results⟩, false)

/-- Mean of the numeric values of column `j`. -/
def colMeanAt (df : DataFrame) (j : Nat) : ℚ :=
  ((colAt df j).map (fun v => match v with | .numV q => q | .strV _ => 0)).sum
    / (df.rows.length : ℚ)

/-- Modelled from the spec: the embedded relational engine (SQLite, external
to the repository) evaluating the single-column AVG aggregate queries emitted
by the matcher — one result row holding the numeric mean of the named column
(spec section 8: a result with one row containing the numeric mean). -/
def engineEvalAvg : Engine := fun df q =>
  match df.cols.enum.find? (fun p => q == avgSql p.2) with
  | some p => .ok ⟨["average_" ++ p.2], [[Value.numV (colMeanAt df p.1)]]⟩
  | none => .error "malformed or unsupported query"

/-! ## Metadata store (`backend/database/mongodb.py`)

Timestamps are integers in seconds; `datetime.now()` becomes the explicit
argument `now`, and `timedelta(days=7)` is the constant `sevenDays`. -/

def sevenDays : Int := 7 * 24 * 60 * 60

/-- The per-session metadata dictionary persisted by the session service.
`hasFilePath` and `hasCsvPath` record the presence of the `file_path` and
`csv_path` keys; in this model every session owns a single on-disk area, so
the stored path strings collapse to presence flags. -/
structure Metadata where
  hasData : Bool := false
  filename : Option String := none
  rowCount : Option Nat := none
  colCount : Option Nat := none
  columnNames : Option (List String) := none
  dtypes : Option (List (String × String)) := none
  isSample : Bool := false
  createdAtMeta : Option Int := none
  expiresAtMeta : Option Int := none
  updatedAtMeta : Option Int := none
  hasFilePath : Bool := false
  hasCsvPath : Bool := false
deriving DecidableEq

/-- A document of the sessions collection: the metadata dictionary plus the
document-level bookkeeping fields, including the `expires_at` field that the
TTL index watches. -/
structure SessDoc where
  metadata : Metadata
  createdAt : Int
  updatedAt : Int
  expiresAt : Int
deriving DecidableEq

/-- A document of the datasets collection (`save_dataset`); path and size
fields collapse in the single-directory disk model. -/
structure DatasetInfo where
  sessionId : String
  filename : Option String
  rowCount : Nat
  colCount : Nat
deriving DecidableEq

/-- The observable state of the metadata store.  `reachable` is whether an
operation against the MongoDB server succeeds or raises.  `memDefined` models
the python guard `IN_MEMORY_SESSIONS in globals()`: that name is only bound
when the module-level client initialisation raises, but in that case the
unconditional collection binding executed right after the handler raises
`NameError` and the module never finishes loading — so in every importable
process the guard is false.  The flag is kept as explicit state so the
fallback branches can still be transcribed faithfully. -/
structure MongoState where
  reachable : Bool
  sessions : List (String × SessDoc)
  memDefined : Bool
  memSessions : List (String × SessDoc)
  datasets : List DatasetInfo
deriving DecidableEq

/-- Update the document stored under key `k` in an association list. -/
def updateAssoc (l : List (String × SessDoc)) (k : String) (f : SessDoc → SessDoc) :
    List (String × SessDoc) :=
  l.map (fun p => if p.1 = k then (p.1, f p.2) else p)

/-- Insert or overwrite the document stored under key `k`. -/
def insertAssoc (l : List (String × SessDoc)) (k : String) (d : SessDoc) :
    List (String × SessDoc) :=
  if (l.lookup k).isSome then l.map (fun p => if p.1 = k then (p.1, d) else p)
  else l ++ [(k, d)]

/-- Test for the `sample-` session-id convention
(`session_id.startswith("sample-")`). -/
def isSampleId (sid : String) : Bool := leadsWith "sample-".toList sid.toList

/-- The rewrite a metadata save applies to an existing session document
(`$set` of metadata, `updated_at` and `expires_at`). -/
def saveDoc (now : Int) (md : Metadata) (d : SessDoc) : SessDoc :=
  {d with metadata := md, updatedAt := now, expiresAt := now + sevenDays}

/-- The rewrite a successful read applies to the session document
(`$set` of `updated_at` and `expires_at = now + 7d`, renewal-on-read). -/
def renewDoc (now : Int) (d : SessDoc) : SessDoc :=
  {d with updatedAt := now, expiresAt := now + sevenDays}

/-- The store state after a metadata save rewrote an existing document. -/
def savedState (st : MongoState) (now : Int) (sid : String) (md : Metadata) : MongoState :=
  {st with sessions := updateAssoc st.sessions sid (saveDoc now md)}

/-- The store state after renewal-on-read of an existing document. -/
def renewedState (st : MongoState) (now : Int) (sid : String) : MongoState :=
  {st with sessions := updateAssoc st.sessions sid (renewDoc now)}

/-- `save_session_metadata`: upsert of a session document; every save also
pushes the document-level `expires_at` to `now + 7d`.  On an unreachable
store the python falls into the `except` branch, whose in-memory write is
guarded by `memDefined`. -/
def save_session_metadata (st : MongoState) (now : Int) (sid : String) (md : Metadata) :
    MongoState × Bool :=
  if st.reachable then
    match st.sessions.lookup sid with
    | some _ =>
      (savedState st now sid md, true)
    | none =>
      ({st with sessions := st.sessions ++ [(sid, ⟨md, now, now, now + sevenDays⟩)]}, true)
  else if st.memDefined then
    ({st with memSessions := insertAssoc st.memSessions sid ⟨md, now, now, now + sevenDays⟩},
     true)
  else (st, false)

/-- The stub metadata created by `get_session_metadata` for an unknown
`sample-` id. -/
def stubSampleMetadata : Metadata :=
  {filename := some "employee_data.csv", hasData := true, isSample := true}

/-- `get_session_metadata`: finds the document and, when found, renews the
document-level `expires_at` to `now + 7d` (renewal-on-read).  No branch
compares `expires_at` with the current time.  An unknown `sample-` id gets a
stub document created on the fly.  On an unreachable store the lookup raises
and the `except` branch consults the in-memory map (without renewal). -/
def get_session_metadata (st : MongoState) (now : Int) (sid : String) :
    Option Metadata × MongoState :=
  if st.reachable then
    match st.sessions.lookup sid with
    | some doc =>
      (some doc.metadata, renewedState st now sid)
    | none =>
      if isSampleId sid then
        let st1 := (save_session_metadata st now sid stubSampleMetadata).1
        (some stubSampleMetadata, st1)
      else if st.memDefined then
        match st.memSessions.lookup sid with
        | some d => (some d.metadata, st)
        | none => (none, st)
      else (none, st)
  else
    if st.memDefined then
      match st.memSessions.lookup sid with
      | some d => (some d.metadata, st)
      | none => (none, st)
    else (none, st)

/-- `save_dataset`: upsert into the datasets collection keyed by filename and
session id; on an unreachable store the exception is caught and the state is
unchanged. -/
def save_dataset (st : MongoState) (info : DatasetInfo) : MongoState :=
  if st.reachable then
    if st.datasets.any (fun d => d.filename == info.filename && d.sessionId == info.sessionId) then
      {st with datasets := st.datasets.map (fun d =>
        if d.filename == info.filename && d.sessionId == info.sessionId then info else d)}
    else {st with datasets := st.datasets ++ [info]}
  else st

/-! ## Session service (`backend/services/session_service.py`) -/

/-- The binary snapshot file: a readable pickle of a dataset, or an unreadable
file. -/
inductive PickleFile where
  | good (df : DataFrame)
  | corrupt
deriving DecidableEq

/-- The on-disk area owned by one session: directory existence, the binary
snapshot and the text snapshot. -/
structure SessionDisk where
  dirExists : Bool := false
  pkl : Option PickleFile := none
  csv : Option CsvFile := none
deriving DecidableEq

/-- Persistence effects of a session-service operation, in execution order. -/
inductive Event where
  | writePickle (df : DataFrame)
  | writeCsv (df : DataFrame)
  | saveMetadata (md : Metadata)
  | saveDatasetInfo (info : DatasetInfo)
deriving DecidableEq

/-- The session-info dictionary returned by `get_session` and
`handle_sample_session`. -/
structure SessionInfo where
  id : String
  createdAt : Int
  expiresAt : Int
  hasData : Bool
  df : Option DataFrame := none
  metadata : Option Metadata := none
deriving DecidableEq

/-- The error kinds raised by the session service (`KeyError` for a missing
or expired session, `ValueError` for the dataset conditions). -/
inductive SessErr where
  | notFound
  | noData
  | fileMissing
  | loadFailed
deriving DecidableEq

/-- The full sample-session metadata written by `handle_sample_session`. -/
def sampleFullMetadata (now : Int) : Metadata :=
  {filename := some "employee_data.csv",
   rowCount := some sampleDf.rows.length,
   colCount := some sampleDf.cols.length,
   columnNames := some sampleDf.cols,
   dtypes := some (dtypesOf sampleDf),
   hasData := true,
   hasFilePath := true, hasCsvPath := true,
   isSample := true,
   createdAtMeta := some now,
   expiresAtMeta := some (now + sevenDays)}

/-- `handle_sample_session`: on first access (no session directory) the
sample dataset is materialised — pickle, then csv, then metadata with
`has_data=True` — and returned; afterwards the metadata is fetched (or
recreated if the store lost it) and returned without touching the snapshots. -/
def handle_sample_session (st : MongoState) (disk : SessionDisk) (now : Int) (sid : String) :
    SessionInfo × MongoState × SessionDisk × List Event :=
  if !disk.dirExists then
    let df := sampleDf
    let disk1 : SessionDisk := {dirExists := true, pkl := some (.good df), csv := some (toCsv df)}
    let md := sampleFullMetadata now
    let st1 := (save_session_metadata st now sid md).1
    (⟨sid, now, now + sevenDays, true, some df, some md⟩, st1, disk1,
     [.writePickle df, .writeCsv df, .saveMetadata md])
  else
    match get_session_metadata st now sid with
    | (some md, st1) =>
      (⟨sid, md.createdAtMeta.getD now, md.expiresAtMeta.getD (now + sevenDays), true,
        none, some md⟩, st1, disk, [])
    | (none, st1) =>
      let md := sampleFullMetadata now
      let st2 := (save_session_metadata st1 now sid md).1
      (⟨sid, now, now + sevenDays, true, none, some md⟩, st2, disk, [.saveMetadata md])

/-- `create_session`: the fresh uuid is supplied by the caller as `sid`;
creates the empty on-disk area and the initial metadata record with
`has_data=False` and expiry seven days out. -/
def create_session (st : MongoState) (now : Int) (sid : String) :
    MongoState × SessionDisk :=
  let md : Metadata :=
    {createdAtMeta := some now, expiresAtMeta := some (now + sevenDays), hasData := false}
  ((save_session_metadata st now sid md).1, {dirExists := true})

/-- `get_session`: sample ids are served by `handle_sample_session`; other
ids fail with `KeyError` when the store returns no metadata, and otherwise
yield the session-info dictionary (recreating the directory if needed). -/
def get_session (st : MongoState) (disk : SessionDisk) (now : Int) (sid : String) :
    Except SessErr SessionInfo × MongoState × SessionDisk :=
  if isSampleId sid then
    let r := handle_sample_session st disk now sid
    (.ok r.1, r.2.1, r.2.2.1)
  else
    match get_session_metadata st now sid with
    | (none, st1) => (.error .notFound, st1, disk)
    | (some md, st1) =>
      (.ok ⟨sid, md.createdAtMeta.getD now, md.expiresAtMeta.getD (now + sevenDays),
            md.hasData, none, some md⟩,
       st1, {disk with dirExists := true})

/-- `get_session_data`: sample ids always produce a dataset (materialising or
falling back to the in-memory sample data when the pickle is unreadable);
other ids require live metadata with `has_data`, then load the pickle, and on
a pickle failure fall back to the csv snapshot with type re-inference. -/
def get_session_data (st : MongoState) (disk : SessionDisk) (now : Int) (sid : String) :
    Except SessErr DataFrame × MongoState × SessionDisk :=
  if isSampleId sid then
    match disk.pkl with
    | none =>
      let r := handle_sample_session st disk now sid
      match r.1.df with
      | some df => (.ok df, r.2.1, r.2.2.1)
      | none =>
        (.ok sampleDf, r.2.1, {r.2.2.1 with dirExists := true, pkl := some (.good sampleDf)})
    | some (.good df) => (.ok df, st, disk)
    | some .corrupt => (.ok sampleDf, st, disk)
  else
    match get_session_metadata st now sid with
    | (none, st1) => (.error .notFound, st1, disk)
    | (some md, st1) =>
      if !md.hasData then (.error .noData, st1, disk)
      else
        match disk.pkl with
        | none => (.error .fileMissing, st1, disk)
        | some (.good df) => (.ok df, st1, disk)
        | some .corrupt =>
          match disk.csv with
          | some f => (.ok (fromCsv f), st1, disk)
          | none => (.error .loadFailed, st1, disk)

/-- The metadata fields rewritten by `add_session_data` (merged over the
existing record via `dict.update`). -/
def attachedMeta (md : Metadata) (df : DataFrame) (filename : Option String) : Metadata :=
  {md with filename := filename,
           rowCount := some df.rows.length,
           colCount := some df.cols.length,
           columnNames := some df.cols,
           dtypes := some (dtypesOf df),
           hasData := true,
           hasFilePath := true, hasCsvPath := true}

/-- `add_session_data` (AttachDataset): requires live metadata, writes the
pickle snapshot, then the csv snapshot derived from the same in-memory
dataset, then saves the merged metadata with `has_data=True`, then records
the dataset document.  The event list reports these effects in execution
order. -/
def add_session_data (st : MongoState) (disk : SessionDisk) (now : Int) (sid : String)
    (df : DataFrame) (filename : Option String) :
    Except SessErr String × MongoState × SessionDisk × List Event :=
  if isSampleId sid then
    let r := handle_sample_session st disk now sid
    (.ok r.1.id, r.2.1, r.2.2.1, r.2.2.2)
  else
    match get_session_metadata st now sid with
    | (none, st1) => (.error .notFound, st1, disk, [])
    | (some md, st1) =>
      let disk1 : SessionDisk := {dirExists := true, pkl := some (.good df), csv := some (toCsv df)}
      let md1 := attachedMeta md df filename
      let st2 := (save_session_metadata st1 now sid md1).1
      let info : DatasetInfo := ⟨sid, filename, df.rows.length, df.cols.length⟩
      let st3 := save_dataset st2 info
      (.ok sid, st3, disk1, [.writePickle df, .writeCsv df, .saveMetadata md1, .saveDatasetInfo info])

/-- The metadata fields rewritten by `update_session_data`. -/
def updatedMeta (md : Metadata) (df : DataFrame) (now : Int) : Metadata :=
  {md with rowCount := some df.rows.length,
           colCount := some df.cols.length,
           columnNames := some df.cols,
           dtypes := some (dtypesOf df),
           hasData := true,
           hasFilePath := true, hasCsvPath := true,
           updatedAtMeta := some now}

/-- `update_session_data`: same snapshot-then-metadata sequence as
`add_session_data`, without the dataset-collection write and without the
sample shortcut. -/
def update_session_data (st : MongoState) (disk : SessionDisk) (now : Int) (sid : String)
    (df : DataFrame) :
    Except SessErr String × MongoState × SessionDisk × List Event :=
  match get_session_metadata st now sid with
  | (none, st1) => (.error .notFound, st1, disk, [])
  | (some md, st1) =>
    let disk1 : SessionDisk := {dirExists := true, pkl := some (.good df), csv := some (toCsv df)}
    let md1 := updatedMeta md df now
    let st2 := (save_session_metadata st1 now sid md1).1
    (.ok sid, st2, disk1, [.writePickle df, .writeCsv df, .saveMetadata md1])

/-- The `/api/sql/query` route (`RunNaturalLanguageQuery`): resolve the
session to a dataset, then run the natural-language pipeline; a session
failure surfaces as a not-found condition. -/
def query_with_natural_language (eng : Engine) (apiKey : String) (remote : RemoteOutcome)
    (st : MongoState) (disk : SessionDisk) (now : Int) (sid : String) (nl : String)
    (useApi : Bool) : Except SessErr NLResponse × MongoState × SessionDisk :=
  match get_session_data st disk now sid with
  | (.ok df, st1, disk1) =>
    (.ok (execute_sql_from_natural_language eng apiKey remote df nl useApi).1, st1, disk1)
  | (.error e, st1, disk1) => (.error e, st1, disk1)

/-! ## Observation helpers and concrete instances used by the theorems -/

/-- Success test on a session-service result. -/
def succeeded {α : Type} : Except SessErr α → Bool
  | .ok _ => true
  | .error _ => false

/-- The property that a piece of query text begins with the keyword SELECT. -/
def selectHeaded (s : String) : Prop := "SELECT".toList <+: s.toList

/-- The keywords the rule-based matcher can recognise anywhere in a request
(branch triggers of the keyword chain plus the two shortcut blocks). -/
def recognizedKeywords : List String :=
  ["average", "avg", "mean", "sum", "total", "count", "maximum", "max",
   "minimum", "min", "group by", "grouped by", "where", "age", "salary"]

/-- An empty, reachable store with the fallback map unbound. -/
def demoStore0 : MongoState := ⟨true, [], false, [], []⟩

/-- Create a fresh session `s1` at time 0. -/
def demoAfterCreate : MongoState × SessionDisk := create_session demoStore0 0 "s1"

/-- Attach the 5-row/10-column sample dataset to `s1` at time 1. -/
def demoAfterAttach : Except SessErr String × MongoState × SessionDisk × List Event :=
  add_session_data demoAfterCreate.1 demoAfterCreate.2 1 "s1" sampleDf
    (some "employee_data.csv")

/-- Run the natural-language query end to end at time 2 with the rule-based
path (`use_remote=false`) against the mean-aggregate engine semantics. -/
def demoRun : Except SessErr NLResponse × MongoState × SessionDisk :=
  query_with_natural_language engineEvalAvg "" RemoteOutcome.exn demoAfterAttach.2.1
    demoAfterAttach.2.2.1 2 "s1" "what is the average salary" false

/-- The query text produced by the end-to-end run. -/
def demoSqlText : Option String :=
  match demoRun.1 with
  | .ok resp => resp.sql
  | .error _ => none

/-- The execution results produced by the end-to-end run. -/
def demoResults : Option ExecResult :=
  match demoRun.1 with
  | .ok resp => some resp.results
  | .error _ => none

/-- A store holding one session whose document-level `expires_at` (100) lies
in the past relative to the access time used in the theorems (200). -/
def expiredStore : MongoState :=
  ⟨true, [("s1", ⟨{hasData := false}, 0, 0, 100⟩)], false, [], []⟩

/-- A small two-column text dataset whose text form re-infers losslessly
(no cell parses as numeric, so re-inference restores the same values). -/
def smallDf : DataFrame :=
  ⟨["a", "b"], [[.strV "x", .strV "y"], [.strV "z", .strV "w"]]⟩

/-- The text snapshot of `smallDf`. -/
def smallCsv : CsvFile := toCsv smallDf

/-- A store holding one live session with a dataset attached. -/
def c3Store : MongoState :=
  ⟨true, [("s1", ⟨{hasData := true, hasFilePath := true, hasCsvPath := true}, 0, 0, 1000⟩)],
   false, [], []⟩

/-- Disk state whose binary snapshot is readable. -/
def diskBinary : SessionDisk := ⟨true, some (.good smallDf), some smallCsv⟩

/-- Disk state whose binary snapshot is unreadable but whose text snapshot
exists. -/
def diskFallback : SessionDisk := ⟨true, some .corrupt, some smallCsv⟩

/-- What a load returns to the caller: the dataset on success. -/
def loadOutcome (st : MongoState) (disk : SessionDisk) (now : Int) (sid : String) :
    Option DataFrame :=
  match (get_session_data st disk now sid).1 with
  | .ok df => some df
  | .error _ => none

/-! ## Helper lemmas -/

theorem lookup_updateAssoc_self (l : List (String × SessDoc)) (k : String)
    (f : SessDoc → SessDoc) :
    (updateAssoc l k f).lookup k = (l.lookup k).map f := by
  induction l with
  | nil => rfl
  | cons p t ih =>
    obtain ⟨a, b⟩ := p
    unfold updateAssoc at *
    rw [List.map_cons]
    by_cases h : a = k
    · subst h
      rw [if_pos rfl]
      simp [List.lookup]
    · rw [if_neg h]
      have hb : (k == a) = false := beq_eq_false_iff_ne.mpr (fun he => h he.symm)
      simp [List.lookup, hb, ih]

theorem lookup_append_single (l : List (String × SessDoc)) (k : String) (d : SessDoc)
    (h : l.lookup k = none) : (l ++ [(k, d)]).lookup k = some d := by
  induction l with
  | nil => simp [List.lookup]
  | cons p t ih =>
    obtain ⟨a, b⟩ := p
    by_cases hak : k = a
    · subst hak; simp [List.lookup] at h
    · have hb : (k == a) = false := beq_eq_false_iff_ne.mpr hak
      simp only [List.cons_append, List.lookup, hb] at h ⊢
      exact ih h

theorem selectHeaded_append (a b : String) (h : selectHeaded a) :
    selectHeaded (a ++ b) := by
  unfold selectHeaded at *
  have hd : (a ++ b).toList = a.toList ++ b.toList := String.data_append a b
  rw [hd]
  exact h.trans (List.prefix_append _ _)

theorem leadsWith_toPrefix : ∀ p l : List Char, leadsWith p l = true → p <+: l
  | [], l, _ => List.nil_prefix
  | p :: ps, [], h => by simp [leadsWith] at h
  | p :: ps, c :: cs, h => by
    unfold leadsWith at h
    rw [Bool.and_eq_true] at h
    have hpc : p = c := beq_iff_eq.mp h.1
    subst hpc
    obtain ⟨t, ht⟩ := leadsWith_toPrefix ps cs h.2
    exact ⟨t, by rw [List.cons_append, ht]⟩

theorem selectHeaded_intro (s : String) (h : leadsWith "SELECT".toList s.toList = true) :
    selectHeaded s :=
  leadsWith_toPrefix _ _ h

theorem selectHeaded_defaultSql : selectHeaded defaultSql :=
  selectHeaded_intro _ (by decide)

theorem selectHeaded_avgSql (c : String) : selectHeaded (avgSql c) := by
  unfold avgSql
  repeat' apply selectHeaded_append
  exact selectHeaded_intro _ (by decide)

theorem selectHeaded_sumColSql (c : String) : selectHeaded (sumColSql c) := by
  unfold sumColSql
  repeat' apply selectHeaded_append
  exact selectHeaded_intro _ (by decide)

theorem selectHeaded_countAllSql : selectHeaded countAllSql :=
  selectHeaded_intro _ (by decide)

theorem selectHeaded_groupCountSql (c : String) : selectHeaded (groupCountSql c) := by
  unfold groupCountSql
  repeat' apply selectHeaded_append
  exact selectHeaded_intro _ (by decide)

theorem selectHeaded_maxColSql (c : String) : selectHeaded (maxColSql c) := by
  unfold maxColSql
  repeat' apply selectHeaded_append
  exact selectHeaded_intro _ (by decide)

theorem selectHeaded_minColSql (c : String) : selectHeaded (minColSql c) := by
  unfold minColSql
  repeat' apply selectHeaded_append
  exact selectHeaded_intro _ (by decide)

theorem selectHeaded_groupAvgSql (g a : String) : selectHeaded (groupAvgSql g a) := by
  unfold groupAvgSql
  repeat' apply selectHeaded_append
  exact selectHeaded_intro _ (by decide)

theorem selectHeaded_whereCmpSql (c op v : String) : selectHeaded (whereCmpSql c op v) := by
  unfold whereCmpSql
  repeat' apply selectHeaded_append
  exact selectHeaded_intro _ (by decide)

theorem selectHeaded_whereNotNullSql (c : String) : selectHeaded (whereNotNullSql c) := by
  unfold whereNotNullSql
  repeat' apply selectHeaded_append
  exact selectHeaded_intro _ (by decide)

theorem ageSpecialSql_cases (q : List Char) :
    ageSpecialSql q = "" ∨ selectHeaded (ageSpecialSql q) := by
  unfold ageSpecialSql
  repeat' split
  all_goals first
    | exact Or.inl rfl
    | exact Or.inr (selectHeaded_intro _ (by decide))

theorem salarySpecialSql_cases (q : List Char) :
    salarySpecialSql q = "" ∨ selectHeaded (salarySpecialSql q) := by
  unfold salarySpecialSql
  repeat' split
  all_goals first
    | exact Or.inl rfl
    | exact Or.inr (selectHeaded_intro _ (by decide))

set_option maxHeartbeats 1000000 in
theorem matchRules_cases (cols : List String) (q : List Char) :
    matchRules cols q = "" ∨ selectHeaded (matchRules cols q) := by
  unfold matchRules
  repeat' split
  all_goals first
    | exact Or.inl rfl
    | (right
       simp only [avgSql, sumColSql, countAllSql, groupCountSql, maxColSql, minColSql,
         groupAvgSql, whereCmpSql, whereNotNullSql, defaultSql]
       repeat' apply selectHeaded_append
       exact selectHeaded_intro _ (by decide))

theorem applySpecials_eq (q : List Char) (sql : String) :
    applySpecials q sql =
      (if hasSub q "salary".toList
            && ((if hasSub q "age".toList && sql == "" then ageSpecialSql q else sql) == "")
       then salarySpecialSql q
       else (if hasSub q "age".toList && sql == "" then ageSpecialSql q else sql)) := rfl

theorem applySpecials_cases (q : List Char) (sql : String)
    (h : sql = "" ∨ selectHeaded sql) :
    applySpecials q sql = "" ∨ selectHeaded (applySpecials q sql) := by
  rw [applySpecials_eq]
  split
  · split
    · exact salarySpecialSql_cases q
    · exact ageSpecialSql_cases q
  · split
    · exact salarySpecialSql_cases q
    · exact h

theorem natural_language_to_sql_eq (cols : List String) (nl : String) :
    natural_language_to_sql cols nl =
      (if applySpecials (normalizeQuery nl) (matchRules cols (normalizeQuery nl)) == ""
       then defaultSql
       else applySpecials (normalizeQuery nl) (matchRules cols (normalizeQuery nl))) := rfl

theorem natural_language_to_sql_total (cols : List String) (nl : String) :
    natural_language_to_sql cols nl ≠ "" ∧
      selectHeaded (natural_language_to_sql cols nl) := by
  have hc := applySpecials_cases (normalizeQuery nl) (matchRules cols (normalizeQuery nl))
    (matchRules_cases cols (normalizeQuery nl))
  rw [natural_language_to_sql_eq]
  rcases hc with h | h
  · rw [h]
    have h0 : (("" : String) == "") = true := rfl
    rw [if_pos h0]
    exact ⟨by decide, selectHeaded_defaultSql⟩
  · by_cases he : applySpecials (normalizeQuery nl) (matchRules cols (normalizeQuery nl)) = ""
    · rw [he] at h
      exact absurd h (by unfold selectHeaded; decide)
    · have hb : (applySpecials (normalizeQuery nl) (matchRules cols (normalizeQuery nl)) == "")
          = false := beq_eq_false_iff_ne.mpr he
      rw [if_neg (by rw [hb]; exact Bool.false_ne_true)]
      exact ⟨he, h⟩

theorem execute_query_some (eng : Engine) (df : DataFrame) (q : String) :
    execute_query eng (some df) q =
      (match eng df q with
       | .ok rdf => ExecResult.ok ⟨rdf.cols, rdf.rows, rdf.rows.length⟩
       | .error e => ExecResult.err e) := rfl

theorem execute_sql_eq (eng : Engine) (apiKey : String) (remote : RemoteOutcome)
    (df : DataFrame) (nl : String) (useGroq : Bool) :
    execute_sql_from_natural_language eng apiKey remote df nl useGroq =
      (⟨nl, chosenSql apiKey remote (loadedDf df).cols nl useGroq,
        match chosenSql apiKey remote (loadedDf df).cols nl useGroq with
        | some s => execute_query eng (some (loadedDf df)) s
        | none => .err "query must be a string"⟩, false) := rfl

/-! ## Claim theorems -/

/-- C4: for every natural-language input and every non-empty schema, the
rule-based matcher returns non-empty query text headed by the SELECT keyword
(the function is total, so it never fails and never returns a missing
value), and on an input containing none of the recognizable keywords it
returns exactly `SELECT * FROM user_data LIMIT 10`. -/
theorem c4_matcher_total_and_default (cols : List String) (nl : String)
    (_hcols : cols ≠ []) :
    (natural_language_to_sql cols nl ≠ "" ∧
      selectHeaded (natural_language_to_sql cols nl)) ∧
    ((∀ kw ∈ recognizedKeywords, hasSub (normalizeQuery nl) kw.toList = false) →
      natural_language_to_sql cols nl = "SELECT * FROM user_data LIMIT 10") := by
  refine ⟨natural_language_to_sql_total cols nl, ?_⟩
  intro hkw
  have h01 : hasSub (normalizeQuery nl) "average".toList = false := hkw _ (by decide)
  have h02 : hasSub (normalizeQuery nl) "avg".toList = false := hkw _ (by decide)
  have h03 : hasSub (normalizeQuery nl) "mean".toList = false := hkw _ (by decide)
  have h04 : hasSub (normalizeQuery nl) "sum".toList = false := hkw _ (by decide)
  have h05 : hasSub (normalizeQuery nl) "total".toList = false := hkw _ (by decide)
  have h06 : hasSub (normalizeQuery nl) "count".toList = false := hkw _ (by decide)
  have h07 : hasSub (normalizeQuery nl) "maximum".toList = false := hkw _ (by decide)
  have h08 : hasSub (normalizeQuery nl) "max".toList = false := hkw _ (by decide)
  have h09 : hasSub (normalizeQuery nl) "minimum".toList = false := hkw _ (by decide)
  have h10 : hasSub (normalizeQuery nl) "min".toList = false := hkw _ (by decide)
  have h11 : hasSub (normalizeQuery nl) "group by".toList = false := hkw _ (by decide)
  have h12 : hasSub (normalizeQuery nl) "grouped by".toList = false := hkw _ (by decide)
  have h13 : hasSub (normalizeQuery nl) "where".toList = false := hkw _ (by decide)
  have h14 : hasSub (normalizeQuery nl) "age".toList = false := hkw _ (by decide)
  have h15 : hasSub (normalizeQuery nl) "salary".toList = false := hkw _ (by decide)
  have hm : matchRules cols (normalizeQuery nl) = "" := by
    unfold matchRules
    rw [h01, h02, h03, h04, h05, h06, h07, h08, h09, h10, h11, h12, h13]
    simp
  have ha : applySpecials (normalizeQuery nl) (matchRules cols (normalizeQuery nl)) = "" := by
    rw [applySpecials_eq, hm, h14, h15]
    simp
  rw [natural_language_to_sql_eq, ha]
  rfl

/-- Witness for C4 at a concrete schema and a keyword-free input. -/
theorem c4_matcher_total_and_default_witness :
    natural_language_to_sql ["age"] "hello there" = "SELECT * FROM user_data LIMIT 10" :=
  (c4_matcher_total_and_default ["age"] "hello there" (by decide)).2 (by decide)

/-- C5: with no remote credential configured, the remote-preferring
translation path returns exactly the rule-based translation, that text is
non-empty, and the whole query pipeline behaves identically whether the
remote path was requested or not. -/
theorem c5_remote_fallback_no_credential (apiKey : String) (remote : RemoteOutcome)
    (cols : List String) (nl : String) (eng : Engine) (df : DataFrame)
    (h : apiKey = "") :
    natural_language_to_sql_with_groq apiKey remote cols nl
        = some (natural_language_to_sql cols nl) ∧
    natural_language_to_sql cols nl ≠ "" ∧
    execute_sql_from_natural_language eng apiKey remote df nl true
        = execute_sql_from_natural_language eng apiKey remote df nl false := by
  subst h
  have hkey : ∀ cols2, natural_language_to_sql_with_groq "" remote cols2 nl
      = some (natural_language_to_sql cols2 nl) := fun _ => rfl
  refine ⟨hkey cols, (natural_language_to_sql_total cols nl).1, ?_⟩
  have hc : chosenSql "" remote (loadedDf df).cols nl true
      = chosenSql "" remote (loadedDf df).cols nl false := rfl
  rw [execute_sql_eq, execute_sql_eq, hc]

/-- Witness for C5 at a concrete schema, input and engine. -/
theorem c5_remote_fallback_no_credential_witness :
    natural_language_to_sql_with_groq "" RemoteOutcome.exn ["a", "b"] "hello"
        = some (natural_language_to_sql ["a", "b"] "hello") ∧
    natural_language_to_sql ["a", "b"] "hello" ≠ "" ∧
    execute_sql_from_natural_language (fun _ _ => Except.error "boom") "" RemoteOutcome.exn
        smallDf "hello" true
      = execute_sql_from_natural_language (fun _ _ => Except.error "boom") "" RemoteOutcome.exn
        smallDf "hello" false :=
  c5_remote_fallback_no_credential "" RemoteOutcome.exn ["a", "b"] "hello"
    (fun _ _ => Except.error "boom") smallDf rfl

/-- C6: a query string the engine rejects surfaces as an error result
carrying the engine message (the model is a total function, so no exception
escapes), and the engine connection is closed at return on this error path
just as on success. -/
theorem c6_execution_failure_torn_down (eng : Engine) (apiKey : String)
    (remote : RemoteOutcome) (df : DataFrame) (nl : String) (useGroq : Bool)
    (s msg : String)
    (hq : chosenSql apiKey remote (loadedDf df).cols nl useGroq = some s)
    (he : eng (loadedDf df) s = Except.error msg) :
    (execute_sql_from_natural_language eng apiKey remote df nl useGroq).1.results
        = ExecResult.err msg ∧
    (execute_sql_from_natural_language eng apiKey remote df nl useGroq).2 = false := by
  constructor
  · rw [execute_sql_eq]
    simp only [hq]
    rw [execute_query_some, he]
  · rfl

/-- Witness for C6 at a concrete dataset and a rejecting engine. -/
theorem c6_execution_failure_torn_down_witness :
    (execute_sql_from_natural_language (fun _ _ => Except.error "incomplete input") ""
        RemoteOutcome.exn smallDf "hello" false).1.results
      = ExecResult.err "incomplete input" ∧
    (execute_sql_from_natural_language (fun _ _ => Except.error "incomplete input") ""
        RemoteOutcome.exn smallDf "hello" false).2 = false :=
  c6_execution_failure_torn_down (fun _ _ => Except.error "incomplete input") ""
    RemoteOutcome.exn smallDf "hello" false "SELECT * FROM user_data LIMIT 10"
    "incomplete input" (by decide) rfl

theorem get_found (st : MongoState) (now : Int) (sid : String) (doc : SessDoc)
    (hr : st.reachable = true) (hl : st.sessions.lookup sid = some doc) :
    get_session_metadata st now sid =
      (some doc.metadata, renewedState st now sid) := by
  simp [get_session_metadata, hr, hl]

theorem get_not_found (st : MongoState) (now : Int) (sid : String)
    (hr : st.reachable = true) (hs : isSampleId sid = false) (hm : st.memDefined = false)
    (hl : st.sessions.lookup sid = none) :
    get_session_metadata st now sid = (none, st) := by
  simp [get_session_metadata, hr, hl, hs, hm]

theorem save_found (st : MongoState) (now : Int) (sid : String) (md : Metadata) (d : SessDoc)
    (hr : st.reachable = true) (hl : st.sessions.lookup sid = some d) :
    save_session_metadata st now sid md =
      (savedState st now sid md, true) := by
  simp [save_session_metadata, hr, hl]

theorem save_new (st : MongoState) (now : Int) (sid : String) (md : Metadata)
    (hr : st.reachable = true) (hl : st.sessions.lookup sid = none) :
    save_session_metadata st now sid md =
      ({st with sessions := st.sessions ++ [(sid, ⟨md, now, now, now + sevenDays⟩)]},
       true) := by
  simp [save_session_metadata, hr, hl]

theorem save_dataset_fields (st : MongoState) (info : DatasetInfo) :
    (save_dataset st info).sessions = st.sessions ∧
      (save_dataset st info).reachable = st.reachable ∧
      (save_dataset st info).memDefined = st.memDefined := by
  unfold save_dataset
  split
  · split
    · exact ⟨rfl, rfl, rfl⟩
    · exact ⟨rfl, rfl, rfl⟩
  · exact ⟨rfl, rfl, rfl⟩

/-- C2 (amended): for a non-sample id served by the primary store, GetSession
fails with NotFound exactly when the store holds no document for the id; a
stored document is returned as a live session regardless of whether its
`expires_at` lies in the past — there is no read-time expiry comparison, and
reclamation is left to the TTL deletion of the document store. -/
theorem c2_get_session_notfound_iff (st : MongoState) (disk : SessionDisk) (now : Int)
    (sid : String)
    (hs : isSampleId sid = false) (hr : st.reachable = true) (hm : st.memDefined = false) :
    (succeeded (get_session st disk now sid).1 = false ↔ st.sessions.lookup sid = none) ∧
    (∀ doc, st.sessions.lookup sid = some doc →
      succeeded (get_session st disk now sid).1 = true) := by
  cases hl : st.sessions.lookup sid with
  | none =>
    have hfalse : succeeded (get_session st disk now sid).1 = false := by
      simp [get_session, hs, get_not_found st now sid hr hs hm hl, succeeded]
    exact ⟨⟨fun _ => rfl, fun _ => hfalse⟩, fun doc hd => by cases hd⟩
  | some doc =>
    have htrue : succeeded (get_session st disk now sid).1 = true := by
      simp [get_session, hs, get_found st now sid doc hr hl, succeeded]
    refine ⟨⟨fun hf => ?_, fun hnone => ?_⟩, fun d _ => htrue⟩
    · rw [htrue] at hf; cases hf
    · cases hnone

/-- Witness for the amended C2 at a concrete store. -/
theorem c2_get_session_notfound_iff_witness :
    (succeeded (get_session expiredStore ⟨true, none, none⟩ 200 "s1").1 = false
      ↔ expiredStore.sessions.lookup "s1" = none) ∧
    (∀ doc, expiredStore.sessions.lookup "s1" = some doc →
      succeeded (get_session expiredStore ⟨true, none, none⟩ 200 "s1").1 = true) :=
  c2_get_session_notfound_iff expiredStore ⟨true, none, none⟩ 200 "s1" (by decide) rfl rfl

/-- C2 as stated is refuted: the store holds a session document whose
`expires_at` (100) lies strictly before the access time (200), yet GetSession
returns it as a live session instead of failing with NotFound. -/
theorem c2_expired_record_returned :
    ((expiredStore.sessions.lookup "s1").map SessDoc.expiresAt = some 100) ∧
    ((100 : Int) < 200) ∧
    succeeded (get_session expiredStore ⟨true, none, none⟩ 200 "s1").1 = true := by
  refine ⟨rfl, by norm_num, rfl⟩

/-- C8: on the primary store every successful GetSession renews the persisted
document-level `expires_at` to `now + 7d` before returning, so two successive
calls — the first at a time after the instant the record was last written,
the second strictly later — each leave a strictly larger persisted
`expires_at` than before the call. -/
theorem c8_renewal_on_read (st : MongoState) (t1 t2 : Int) (sid : String) (doc : SessDoc)
    (hr : st.reachable = true) (hl : st.sessions.lookup sid = some doc)
    (h0 : doc.expiresAt < t1 + sevenDays) (h12 : t1 < t2) :
    ∃ doc1 doc2,
      (get_session_metadata st t1 sid).1 = some doc.metadata ∧
      ((get_session_metadata st t1 sid).2).sessions.lookup sid = some doc1 ∧
      doc1.expiresAt = t1 + sevenDays ∧
      doc.expiresAt < doc1.expiresAt ∧
      ((get_session_metadata (get_session_metadata st t1 sid).2 t2 sid).2).sessions.lookup sid
        = some doc2 ∧
      doc2.expiresAt = t2 + sevenDays ∧
      doc1.expiresAt < doc2.expiresAt := by
  have h1 := get_found st t1 sid doc hr hl
  have hl1 : ((get_session_metadata st t1 sid).2).sessions.lookup sid
      = some (renewDoc t1 doc) := by
    rw [h1]
    show (updateAssoc st.sessions sid (renewDoc t1)).lookup sid = _
    rw [lookup_updateAssoc_self, hl]
    rfl
  have hr1 : ((get_session_metadata st t1 sid).2).reachable = true := by
    rw [h1]; exact hr
  have h2 := get_found (get_session_metadata st t1 sid).2 t2 sid (renewDoc t1 doc) hr1 hl1
  refine ⟨renewDoc t1 doc, renewDoc t2 (renewDoc t1 doc),
          by rw [h1], hl1, rfl, h0, ?_, rfl, by show t1 + sevenDays < t2 + sevenDays; omega⟩
  rw [h2]
  show (updateAssoc ((get_session_metadata st t1 sid).2).sessions sid (renewDoc t2)).lookup sid = _
  rw [lookup_updateAssoc_self, hl1]
  rfl

/-- Witness for C8 at a concrete store and two successive access times. -/
theorem c8_renewal_on_read_witness :
    ∃ doc1 doc2,
      (get_session_metadata expiredStore 10 "s1").1 = some ({hasData := false} : Metadata) ∧
      ((get_session_metadata expiredStore 10 "s1").2).sessions.lookup "s1" = some doc1 ∧
      doc1.expiresAt = 10 + sevenDays ∧
      (100 : Int) < doc1.expiresAt ∧
      ((get_session_metadata (get_session_metadata expiredStore 10 "s1").2 20 "s1").2).sessions.lookup "s1"
        = some doc2 ∧
      doc2.expiresAt = 20 + sevenDays ∧
      doc1.expiresAt < doc2.expiresAt :=
  c8_renewal_on_read expiredStore 10 20 "s1" ⟨{hasData := false}, 0, 0, 100⟩ rfl rfl
    (by norm_num [sevenDays]) (by norm_num)

theorem add_found (st : MongoState) (disk : SessionDisk) (now : Int) (sid : String)
    (df : DataFrame) (fn : Option String) (doc : SessDoc)
    (hs : isSampleId sid = false) (hr : st.reachable = true)
    (hl : st.sessions.lookup sid = some doc) :
    add_session_data st disk now sid df fn =
      (.ok sid,
       save_dataset
         (save_session_metadata (renewedState st now sid) now sid
           (attachedMeta doc.metadata df fn)).1
         ⟨sid, fn, df.rows.length, df.cols.length⟩,
       ⟨true, some (.good df), some (toCsv df)⟩,
       [.writePickle df, .writeCsv df, .saveMetadata (attachedMeta doc.metadata df fn),
        .saveDatasetInfo ⟨sid, fn, df.rows.length, df.cols.length⟩]) := by
  simp [add_session_data, hs, get_found st now sid doc hr hl]

theorem update_found (st : MongoState) (disk : SessionDisk) (now : Int) (sid : String)
    (df : DataFrame) (doc : SessDoc)
    (hr : st.reachable = true) (hl : st.sessions.lookup sid = some doc) :
    update_session_data st disk now sid df =
      (.ok sid,
       (save_session_metadata (renewedState st now sid) now sid
           (updatedMeta doc.metadata df now)).1,
       ⟨true, some (.good df), some (toCsv df)⟩,
       [.writePickle df, .writeCsv df, .saveMetadata (updatedMeta doc.metadata df now)]) := by
  simp [update_session_data, get_found st now sid doc hr hl]

/-- C7: in every execution of the attach operation on a live non-sample
session the persistence effects happen in the order: binary snapshot write,
text snapshot write derived from the same in-memory dataset (the event
carries the dataset it was derived from), metadata save with
`has_data=true`, dataset-document save; every metadata save in the trace
comes strictly after both snapshot writes, and the dataset-update operation
behaves the same way. -/
theorem c7_attach_write_order (st : MongoState) (disk : SessionDisk) (now : Int)
    (sid : String) (df : DataFrame) (fn : Option String) (doc : SessDoc)
    (hs : isSampleId sid = false) (hr : st.reachable = true)
    (hl : st.sessions.lookup sid = some doc) :
    ((add_session_data st disk now sid df fn).2.2.2 =
        [.writePickle df, .writeCsv df, .saveMetadata (attachedMeta doc.metadata df fn),
         .saveDatasetInfo ⟨sid, fn, df.rows.length, df.cols.length⟩] ∧
      (attachedMeta doc.metadata df fn).hasData = true ∧
      (∀ k m, (add_session_data st disk now sid df fn).2.2.2.get? k
          = some (.saveMetadata m) → 2 ≤ k)) ∧
    ((update_session_data st disk now sid df).2.2.2 =
        [.writePickle df, .writeCsv df, .saveMetadata (updatedMeta doc.metadata df now)] ∧
      (updatedMeta doc.metadata df now).hasData = true ∧
      (∀ k m, (update_session_data st disk now sid df).2.2.2.get? k
          = some (.saveMetadata m) → 2 ≤ k)) := by
  have hadd := add_found st disk now sid df fn doc hs hr hl
  have hupd := update_found st disk now sid df doc hr hl
  constructor
  · refine ⟨by rw [hadd], rfl, ?_⟩
    intro k m hk
    rw [hadd] at hk
    match k, hk with
    | 0, hk => simp at hk
    | 1, hk => simp at hk
    | n + 2, _ => omega
  · refine ⟨by rw [hupd], rfl, ?_⟩
    intro k m hk
    rw [hupd] at hk
    match k, hk with
    | 0, hk => simp at hk
    | 1, hk => simp at hk
    | n + 2, _ => omega

/-- Witness for C7 at a concrete store, session and dataset. -/
theorem c7_attach_write_order_witness :
    ((add_session_data c3Store ⟨true, none, none⟩ 5 "s1" smallDf (some "f.csv")).2.2.2 =
        [.writePickle smallDf, .writeCsv smallDf,
         .saveMetadata (attachedMeta {hasData := true, hasFilePath := true, hasCsvPath := true}
           smallDf (some "f.csv")),
         .saveDatasetInfo ⟨"s1", some "f.csv", smallDf.rows.length, smallDf.cols.length⟩] ∧
      (attachedMeta {hasData := true, hasFilePath := true, hasCsvPath := true} smallDf
        (some "f.csv")).hasData = true ∧
      (∀ k m, (add_session_data c3Store ⟨true, none, none⟩ 5 "s1" smallDf
          (some "f.csv")).2.2.2.get? k = some (.saveMetadata m) → 2 ≤ k)) ∧
    ((update_session_data c3Store ⟨true, none, none⟩ 5 "s1" smallDf).2.2.2 =
        [.writePickle smallDf, .writeCsv smallDf,
         .saveMetadata (updatedMeta {hasData := true, hasFilePath := true, hasCsvPath := true}
           smallDf 5)] ∧
      (updatedMeta {hasData := true, hasFilePath := true, hasCsvPath := true} smallDf 5).hasData
        = true ∧
      (∀ k m, (update_session_data c3Store ⟨true, none, none⟩ 5 "s1" smallDf).2.2.2.get? k
          = some (.saveMetadata m) → 2 ≤ k)) :=
  c7_attach_write_order c3Store ⟨true, none, none⟩ 5 "s1" smallDf (some "f.csv")
    ⟨{hasData := true, hasFilePath := true, hasCsvPath := true}, 0, 0, 1000⟩
    (by decide) rfl rfl

theorem get_session_data_found_good (st : MongoState) (disk : SessionDisk) (now : Int)
    (sid : String) (md : Metadata) (df : DataFrame)
    (hs : isSampleId sid = false)
    (hmd : (get_session_metadata st now sid).1 = some md)
    (hd : md.hasData = true)
    (hpkl : disk.pkl = some (.good df)) :
    (get_session_data st disk now sid).1 = Except.ok df := by
  unfold get_session_data
  rw [hs, if_neg Bool.false_ne_true]
  split
  · next st1 heq =>
    rw [heq] at hmd
    cases hmd
  · next md2 st1 heq =>
    rw [heq] at hmd
    have hmd2 : md2 = md := by
      have : some md2 = some md := hmd
      injection this
    subst hmd2
    rw [hd, if_neg (by decide), hpkl]

/-- C9: attaching a dataset to a live non-sample session and then loading it
back returns a dataset with identical row count, column count and column
name ordering (the binary snapshot round-trips the in-memory dataset). -/
theorem c9_attach_load_roundtrip (st : MongoState) (disk : SessionDisk) (now now2 : Int)
    (sid : String) (df : DataFrame) (fn : Option String) (doc : SessDoc)
    (hs : isSampleId sid = false) (hr : st.reachable = true)
    (hl : st.sessions.lookup sid = some doc) :
    ∃ df2,
      (add_session_data st disk now sid df fn).1 = Except.ok sid ∧
      (get_session_data (add_session_data st disk now sid df fn).2.1
        (add_session_data st disk now sid df fn).2.2.1 now2 sid).1 = Except.ok df2 ∧
      df2.rows.length = df.rows.length ∧
      df2.cols.length = df.cols.length ∧
      df2.cols = df.cols := by
  have hadd := add_found st disk now sid df fn doc hs hr hl
  refine ⟨df, by rw [hadd], ?_, rfl, rfl, rfl⟩
  rw [hadd]
  have hlG : (renewedState st now sid).sessions.lookup sid = some (renewDoc now doc) := by
    show (updateAssoc st.sessions sid (renewDoc now)).lookup sid = _
    rw [lookup_updateAssoc_self, hl]; rfl
  have hsave := save_found (renewedState st now sid)
    now sid (attachedMeta doc.metadata df fn) (renewDoc now doc) hr hlG
  rw [hsave]
  have hds := save_dataset_fields
    (savedState (renewedState st now sid) now sid (attachedMeta doc.metadata df fn))
    ⟨sid, fn, df.rows.length, df.cols.length⟩
  have hl3 : (save_dataset
      (savedState (renewedState st now sid) now sid (attachedMeta doc.metadata df fn))
      ⟨sid, fn, df.rows.length, df.cols.length⟩).sessions.lookup sid
      = some (saveDoc now (attachedMeta doc.metadata df fn) (renewDoc now doc)) := by
    rw [hds.1]
    show (updateAssoc (updateAssoc st.sessions sid (renewDoc now)) sid _).lookup sid = _
    rw [lookup_updateAssoc_self, lookup_updateAssoc_self, hl]
    rfl
  have hr3 : (save_dataset
      (savedState (renewedState st now sid) now sid (attachedMeta doc.metadata df fn))
      ⟨sid, fn, df.rows.length, df.cols.length⟩).reachable = true := by
    rw [hds.2.1]; exact hr
  have hget := get_found _ now2 sid _ hr3 hl3
  exact get_session_data_found_good _ _ now2 sid _ df hs (by rw [hget]) rfl rfl

/-- Witness for C9 at a concrete store, session and dataset. -/
theorem c9_attach_load_roundtrip_witness :
    ∃ df2,
      (add_session_data c3Store ⟨true, none, none⟩ 5 "s1" smallDf (some "f.csv")).1
        = Except.ok "s1" ∧
      (get_session_data (add_session_data c3Store ⟨true, none, none⟩ 5 "s1" smallDf
          (some "f.csv")).2.1
        (add_session_data c3Store ⟨true, none, none⟩ 5 "s1" smallDf (some "f.csv")).2.2.1
        6 "s1").1 = Except.ok df2 ∧
      df2.rows.length = smallDf.rows.length ∧
      df2.cols.length = smallDf.cols.length ∧
      df2.cols = smallDf.cols :=
  c9_attach_load_roundtrip c3Store ⟨true, none, none⟩ 5 6 "s1" smallDf (some "f.csv")
    ⟨{hasData := true, hasFilePath := true, hasCsvPath := true}, 0, 0, 1000⟩
    (by decide) rfl rfl

/-- C3 (amended): for a live non-sample session whose binary snapshot is
unreadable but whose text snapshot exists, loading falls back to the text
snapshot with column types re-inferred from the literal values; the load
result is a bare dataset carrying no provenance flag, so it is
indistinguishable from a binary load to the caller. -/
theorem c3_csv_fallback_no_flag (st : MongoState) (disk : SessionDisk) (now : Int)
    (sid : String) (md : Metadata) (f : CsvFile)
    (hs : isSampleId sid = false)
    (hmd : (get_session_metadata st now sid).1 = some md)
    (hd : md.hasData = true)
    (hpkl : disk.pkl = some .corrupt)
    (hcsv : disk.csv = some f) :
    (get_session_data st disk now sid).1 = Except.ok (fromCsv f) := by
  unfold get_session_data
  rw [hs, if_neg Bool.false_ne_true]
  split
  · next st1 heq =>
    rw [heq] at hmd
    cases hmd
  · next md2 st1 heq =>
    rw [heq] at hmd
    have hmd2 : md2 = md := by
      have : some md2 = some md := hmd
      injection this
    subst hmd2
    rw [hd, if_neg (by decide), hpkl, hcsv]

/-- Witness for the amended C3 at a concrete store and disk state. -/
theorem c3_csv_fallback_no_flag_witness :
    (get_session_data c3Store diskFallback 10 "s1").1 = Except.ok (fromCsv smallCsv) :=
  c3_csv_fallback_no_flag c3Store diskFallback 10 "s1"
    {hasData := true, hasFilePath := true, hasCsvPath := true} smallCsv
    (by decide) rfl rfl rfl rfl

/-- C3 as stated is refuted: for the two concrete disk states below — one
loading the readable binary snapshot, the other falling back to the text
snapshot after an unreadable binary — the load results are equal bare
datasets, so nothing in the load result tells the caller that the dataset
was re-inferred rather than loaded from the authoritative binary form. -/
theorem c3_no_provenance_flag :
    diskFallback.pkl = some PickleFile.corrupt ∧
    diskFallback.csv = some smallCsv ∧
    diskBinary.pkl = some (PickleFile.good smallDf) ∧
    loadOutcome c3Store diskFallback 10 "s1" = some (fromCsv smallCsv) ∧
    loadOutcome c3Store diskFallback 10 "s1" = loadOutcome c3Store diskBinary 10 "s1" :=
  ⟨rfl, rfl, rfl, rfl, rfl⟩

theorem handle_sample_hasData (st : MongoState) (disk : SessionDisk) (now : Int)
    (sid : String) :
    (handle_sample_session st disk now sid).1.hasData = true := by
  unfold handle_sample_session
  split
  · rfl
  · split <;> rfl

theorem handle_sample_first (st : MongoState) (disk : SessionDisk) (now : Int) (sid : String)
    (hdir : disk.dirExists = false) :
    handle_sample_session st disk now sid =
      (⟨sid, now, now + sevenDays, true, some sampleDf, some (sampleFullMetadata now)⟩,
       (save_session_metadata st now sid (sampleFullMetadata now)).1,
       ⟨true, some (.good sampleDf), some (toCsv sampleDf)⟩,
       [.writePickle sampleDf, .writeCsv sampleDf, .saveMetadata (sampleFullMetadata now)]) := by
  unfold handle_sample_session
  rw [hdir]
  rfl

/-- C10: for every session id that carries the `sample-` convention,
GetSession always succeeds and reports `has_data=true`, and the dataset load
always succeeds — neither NotFound nor NoDataset is possible, bypassing the
create-before-get and expiration rules; on first access (no session
directory, hence no binary snapshot) the store materialises the fixed
5-row/10-column sample dataset, returns exactly it, writes the binary and
text snapshots, and (when the primary store is reachable) persists metadata
with `has_data=true`. -/
theorem c10_sample_sessions_never_fail (st : MongoState) (disk : SessionDisk) (now : Int)
    (sid : String) (hs : isSampleId sid = true) :
    (∃ info, (get_session st disk now sid).1 = Except.ok info ∧ info.hasData = true) ∧
    (∃ df, (get_session_data st disk now sid).1 = Except.ok df) ∧
    (disk.dirExists = false → disk.pkl = none →
      (get_session_data st disk now sid).1 = Except.ok sampleDf ∧
      ((get_session_data st disk now sid).2.2).pkl = some (.good sampleDf) ∧
      ((get_session_data st disk now sid).2.2).csv = some (toCsv sampleDf) ∧
      (st.reachable = true →
        ∃ doc, (((get_session_data st disk now sid).2.1).sessions.lookup sid) = some doc ∧
          doc.metadata.hasData = true) ∧
      sampleDf.rows.length = 5 ∧ sampleDf.cols.length = 10) := by
  refine ⟨⟨(handle_sample_session st disk now sid).1, ?_, handle_sample_hasData st disk now sid⟩,
          ?_, ?_⟩
  · unfold get_session
    rw [hs, if_pos rfl]
  · unfold get_session_data
    rw [hs, if_pos rfl]
    cases hp : disk.pkl with
    | none =>
      dsimp only
      cases hdf : (handle_sample_session st disk now sid).1.df with
      | some df => exact ⟨df, rfl⟩
      | none => exact ⟨sampleDf, rfl⟩
    | some p =>
      cases p with
      | good df => exact ⟨df, rfl⟩
      | corrupt => exact ⟨sampleDf, rfl⟩
  · intro hdir hp0
    have hgsd : get_session_data st disk now sid =
        (.ok sampleDf,
         (save_session_metadata st now sid (sampleFullMetadata now)).1,
         ⟨true, some (.good sampleDf), some (toCsv sampleDf)⟩) := by
      unfold get_session_data
      rw [hs, if_pos rfl, hp0, handle_sample_first st disk now sid hdir]
    rw [hgsd]
    refine ⟨rfl, rfl, rfl, ?_, rfl, rfl⟩
    intro hrch
    cases hl : st.sessions.lookup sid with
    | some d =>
      refine ⟨saveDoc now (sampleFullMetadata now) d, ?_, rfl⟩
      rw [save_found st now sid (sampleFullMetadata now) d hrch hl]
      show (updateAssoc st.sessions sid (saveDoc now (sampleFullMetadata now))).lookup sid = _
      rw [lookup_updateAssoc_self, hl]
      rfl
    | none =>
      refine ⟨(⟨sampleFullMetadata now, now, now, now + sevenDays⟩ : SessDoc), ?_, rfl⟩
      rw [save_new st now sid (sampleFullMetadata now) hrch hl]
      show (st.sessions
          ++ [(sid, (⟨sampleFullMetadata now, now, now, now + sevenDays⟩ : SessDoc))]).lookup sid
        = some (⟨sampleFullMetadata now, now, now, now + sevenDays⟩ : SessDoc)
      rw [lookup_append_single st.sessions sid _ hl]

/-- Witness for C10 at a concrete sample id over an empty store and disk. -/
theorem c10_sample_sessions_never_fail_witness :
    (∃ info, (get_session demoStore0 {} 3 "sample-abc").1 = Except.ok info
      ∧ info.hasData = true) ∧
    (∃ df, (get_session_data demoStore0 {} 3 "sample-abc").1 = Except.ok df) ∧
    (({} : SessionDisk).dirExists = false → ({} : SessionDisk).pkl = none →
      (get_session_data demoStore0 {} 3 "sample-abc").1 = Except.ok sampleDf ∧
      ((get_session_data demoStore0 {} 3 "sample-abc").2.2).pkl = some (.good sampleDf) ∧
      ((get_session_data demoStore0 {} 3 "sample-abc").2.2).csv = some (toCsv sampleDf) ∧
      (demoStore0.reachable = true →
        ∃ doc, (((get_session_data demoStore0 {} 3 "sample-abc").2.1).sessions.lookup
            "sample-abc") = some doc ∧ doc.metadata.hasData = true) ∧
      sampleDf.rows.length = 5 ∧ sampleDf.cols.length = 10) :=
  c10_sample_sessions_never_fail demoStore0 {} 3 "sample-abc" (by decide)

/-- C1 as stated is refuted: on the end-to-end run — fresh session, sample
dataset attached, RunNaturalLanguageQuery of "what is the average salary"
with use_remote=false — the produced query text is the age aggregate, not
the salary aggregate the claim expects: "age" is the first column name found
as a substring of the normalised request (the word "average" contains "age")
and the age column precedes the salary column. -/
theorem c1_average_salary_refuted :
    demoSqlText = some "SELECT AVG(age) as average_age FROM user_data" ∧
    demoSqlText ≠ some "SELECT AVG(salary) as average_salary FROM user_data" := by
  constructor
  · decide
  · decide

/-- C1 (amended): the end-to-end run yields exactly the query text
`SELECT AVG(age) as average_age FROM user_data`, and executing it yields one
row containing the numeric mean of the `age` column, 162/5 = 32.4. -/
theorem c1_average_age_end_to_end :
    demoSqlText = some (avgSql "age") ∧
    demoResults = some (ExecResult.ok ⟨["average_age"],
      [[Value.numV (colMeanAt (loadedDf sampleDf) 0)]], 1⟩) ∧
    (loadedDf sampleDf).cols.get? 0 = some "age" ∧
    colMeanAt (loadedDf sampleDf) 0 = 162 / 5 := by
  refine ⟨rfl, rfl, rfl, ?_⟩
  have hcol : colAt (loadedDf sampleDf) 0 =
      [Value.numV 28, Value.numV 34, Value.numV 45, Value.numV 31, Value.numV 24] := by
    decide
  have hlen : (loadedDf sampleDf).rows.length = 5 := by decide
  unfold colMeanAt
  rw [hcol, hlen]
  show ((28 : ℚ) + (34 + (45 + (31 + (24 + 0))))) / ((5 : Nat) : ℚ) = 162 / 5
  norm_num

end DataSage
